import Mathlib

/-!
Shallow embedding of `src/bigtable-rs/src/bigtable.rs`.

The embedded code is:
* `BigTable::decode_read_rows_response` (lines 238-314): the chunk
  reassembler that turns a stream of `ReadRowsResponse` messages, each
  carrying a list of `CellChunk` fragments, into a list of
  `(RowKey, RowData)` pairs, with a wall-clock timeout check after each
  received message.
* the endpoint-pool construction inside `BigTableConnection::new`
  (lines 107-132 emulator branch, lines 148-175 production branch).

Modelling choices:
* Byte strings (`Vec<u8>`: row keys, qualifiers, cell values) are
  modelled as `String`, kept opaque (only emptiness tests, equality and
  concatenation are used by the code).
* `timestamp_micros: i64` is modelled as `Int`; the code only compares
  timestamps, so machine-width overflow does not arise.
* Wall-clock time is made explicit: each received stream message is
  paired with the elapsed duration (a `Nat`, in arbitrary time units)
  that `Instant::now().duration_since(started)` reads at the timeout
  check that follows its receipt.  `Option Nat` models
  `Option<Duration>`.
* The `rrr.message().await?` transport-error path and the gRPC machinery
  are outside the decoding logic and are not modelled; the stream is a
  finite list of successfully received messages followed by EOF.
-/

namespace BigtableRs

abbrev RowKey := String
abbrev CellName := String
abbrev CellValue := String
abbrev RowData := List (CellName × CellValue)

/-- RowStatus from `read_rows_response::cell_chunk::RowStatus`: the oneof
carries either a reset marker or a commit marker, each with a bool payload
that the decoder ignores. -/
inductive RowStatus where
  | resetRow (b : Bool)
  | commitRow (b : Bool)
deriving DecidableEq, Repr

/-- CellChunk fields read by `decode_read_rows_response`: `row_key`
(possibly empty), optional `qualifier`, `timestamp_micros`, `value` bytes
and the optional `row_status` marker. -/
structure CellChunk where
  row_key : String
  qualifier : Option String
  timestamp_micros : Int
  value : String
  row_status : Option RowStatus
deriving DecidableEq, Repr

/-- One streamed `ReadRowsResponse` message: a list of chunks. -/
structure ReadRowsResponse where
  chunks : List CellChunk
deriving DecidableEq, Repr

/-- The crate's `Error` enum (bigtable.rs lines 30-61); payloads of the
externally-typed variants are abstracted away. -/
inductive Error where
  | accessTokenError (msg : String)
  | certificateError (msg : String)
  | ioError
  | transportError
  | rowNotFound
  | rowWriteFailed
  | objectNotFound (msg : String)
  | objectCorrupt (msg : String)
  | rpcError
  | timeoutError
deriving DecidableEq, Repr

/-- The mutable locals of `decode_read_rows_response` (lines 242-250):
accumulated output `rows` plus the per-row construction state. -/
structure DecoderState where
  rows : List (RowKey × RowData)
  row_key : Option RowKey
  row_data : RowData
  cell_name : Option CellName
  cell_timestamp : Int
  cell_value : CellValue
  cell_version_ok : Bool
deriving DecidableEq, Repr

/-- Initial decoder state (lines 242-250): everything empty,
`cell_timestamp = 0`, `cell_version_ok = true`. -/
def initState : DecoderState :=
  { rows := [], row_key := none, row_data := [], cell_name := none,
    cell_timestamp := 0, cell_value := "", cell_version_ok := true }

/-- Lines 264-267: `if !chunk.row_key.is_empty() { row_key = Some(chunk.row_key); }`. -/
def setRowKey (chunk : CellChunk) (s : DecoderState) : DecoderState :=
  if chunk.row_key = "" then s else { s with row_key := some chunk.row_key }

/-- Lines 269-291: on a qualifier, flush any open cell into `row_data`
and open the new cell; otherwise run the in-stream version check on a
nonzero timestamp. -/
def startOrContinueCell (chunk : CellChunk) (s : DecoderState) : DecoderState :=
  match chunk.qualifier with
  | some qualifier =>
      let s1 :=
        match s.cell_name with
        | some n => { s with row_data := s.row_data ++ [(n, s.cell_value)], cell_value := "" }
        | none => s
      { s1 with cell_name := some qualifier,
                cell_timestamp := chunk.timestamp_micros,
                cell_version_ok := true }
  | none =>
      if chunk.timestamp_micros ≠ 0 then
        if chunk.timestamp_micros < s.cell_timestamp then
          { s with cell_version_ok := false }
        else
          { s with cell_version_ok := true, cell_value := "",
                   cell_timestamp := chunk.timestamp_micros }
      else s

/-- Lines 292-294: `if cell_version_ok { cell_value.append(&mut chunk.value); }`. -/
def appendValue (chunk : CellChunk) (s : DecoderState) : DecoderState :=
  if s.cell_version_ok then { s with cell_value := s.cell_value ++ chunk.value } else s

/-- Lines 296-305: on `RowStatus::CommitRow(_)`, flush the open cell into
`row_data` and, if a row key is set, push the finished row. -/
def commitRowStep (chunk : CellChunk) (s : DecoderState) : DecoderState :=
  match chunk.row_status with
  | some (RowStatus.commitRow _) =>
      let s1 :=
        match s.cell_name with
        | some n => { s with row_data := s.row_data ++ [(n, s.cell_value)] }
        | none => s
      match s1.row_key with
      | some k => { s1 with rows := s1.rows ++ [(k, s1.row_data)] }
      | none => s1
  | _ => s

/-- Lines 307-310: the reset executed at the end of EVERY chunk iteration
(it is not guarded by the commit branch):
`row_key = None; row_data = vec![]; cell_value = vec![]; cell_name = None;`.
`cell_timestamp` and `cell_version_ok` are not touched. -/
def resetRowState (s : DecoderState) : DecoderState :=
  { s with row_key := none, row_data := [], cell_value := "", cell_name := none }

/-- One iteration of the `for (i, mut chunk) in res.chunks ...` loop body
(lines 259-311), in source order. -/
def processChunk (s : DecoderState) (chunk : CellChunk) : DecoderState :=
  resetRowState (commitRowStep chunk (appendValue chunk (startOrContinueCell chunk (setRowKey chunk s))))

/-- The inner `for` loop over one message's chunks. -/
def processChunks (s : DecoderState) (chunks : List CellChunk) : DecoderState :=
  List.foldl processChunk s chunks

/-- The `while let Some(res) = rrr.message().await?` loop (lines 253-312):
after each received message, if a timeout is configured and the elapsed
time exceeds it, return `Err(Error::TimeoutError)`; otherwise process the
message's chunks and continue.  On EOF return `Ok(rows)`. -/
def decodeLoop (timeout : Option Nat) :
    DecoderState → List (Nat × ReadRowsResponse) → Except Error (List (RowKey × RowData))
  | s, [] => Except.ok s.rows
  | s, (elapsed, res) :: rest =>
      match timeout with
      | some t =>
          if t < elapsed then Except.error Error.timeoutError
          else decodeLoop timeout (processChunks s res.chunks) rest
      | none => decodeLoop timeout (processChunks s res.chunks) rest

/-- `BigTable::decode_read_rows_response` (lines 238-314), with the
stream given as the list of received messages, each paired with the
elapsed wall-clock reading at its timeout check. -/
def decode_read_rows_response (timeout : Option Nat)
    (messages : List (Nat × ReadRowsResponse)) : Except Error (List (RowKey × RowData)) :=
  decodeLoop timeout initState messages

/-- A tonic endpoint as configured by `BigTableConnection::new`: the URI,
whether TLS with the Google root CA and domain name is configured,
keep-alive, and the optional per-endpoint timeout. -/
structure Endpoint where
  uri : String
  tls_domain : Option String
  keep_alive_while_idle : Bool
  timeout : Option Nat
deriving DecidableEq, Repr

/-- Emulator branch of `BigTableConnection::new` (lines 107-132):
`vec![0; channel_size.max(1)]` mapped to plaintext endpoints with
keep-alive, then mapped again to apply the optional timeout. -/
def emulatorEndpoints (channel_size : Nat) (endpoint : String)
    (timeout : Option Nat) : List Endpoint :=
  ((List.replicate (max channel_size 1) 0).map
    (fun _ => { uri := "http://" ++ endpoint, tls_domain := none,
                keep_alive_while_idle := true, timeout := none : Endpoint })).map
    (fun ep => match timeout with
      | some t => { ep with timeout := some t }
      | none => ep)

/-- Production branch of `BigTableConnection::new` (lines 148-175):
`vec![0; channel_size.max(1)]` mapped to TLS endpoints for
`https://bigtable.googleapis.com`, then keep-alive, then the optional
timeout (the fallible root-CA load is abstracted to its success path). -/
def productionEndpoints (channel_size : Nat) (timeout : Option Nat) : List Endpoint :=
  (((List.replicate (max channel_size 1) 0).map
    (fun _ => { uri := "https://bigtable.googleapis.com",
                tls_domain := some "bigtable.googleapis.com",
                keep_alive_while_idle := false, timeout := none : Endpoint })).map
    (fun ep => { ep with keep_alive_while_idle := true })).map
    (fun ep => match timeout with
      | some t => { ep with timeout := some t }
      | none => ep)

/-- Decides whether a `row_status` is the commit marker the decoder
matches at line 297 (`Some(RowStatus::CommitRow(_))`). -/
def isCommitMarker : Option RowStatus → Bool
  | some (RowStatus.commitRow _) => true
  | _ => false

/-- Concrete state for exercising the equal-timestamp version rule: a
cell open at timestamp 7 with buffered bytes. -/
def c5_state : DecoderState :=
  { initState with cell_name := some "c1", cell_timestamp := 7, cell_value := "old" }

/-- Concrete continuation chunk carrying the same timestamp 7. -/
def c5_chunk : CellChunk :=
  { row_key := "", qualifier := none, timestamp_micros := 7, value := "new",
    row_status := none }

/-- Concrete chunk carrying a commit marker but no row key. -/
def c7_chunk : CellChunk :=
  { row_key := "", qualifier := some "q", timestamp_micros := 3, value := "v",
    row_status := some (RowStatus.commitRow true) }

/-- Concrete one-message stream whose only chunk has no commit marker. -/
def c8_msgs : List (Nat × ReadRowsResponse) :=
  [(0, ⟨[{ row_key := "r1", qualifier := some "c1", timestamp_micros := 1,
           value := "v", row_status := none }]⟩)]

/-- Concrete one-message stream, a complete committed row, received with
elapsed reading 5. -/
def c6_msgs : List (Nat × ReadRowsResponse) :=
  [(5, ⟨[{ row_key := "r1", qualifier := some "c1", timestamp_micros := 1,
           value := "v", row_status := some (RowStatus.commitRow true) }]⟩)]

theorem setRowKey_of_empty (c : CellChunk) (s : DecoderState) (h : c.row_key = "") :
    setRowKey c s = s := by
  unfold setRowKey
  simp [h]

theorem rows_setRowKey (c : CellChunk) (s : DecoderState) :
    (setRowKey c s).rows = s.rows := by
  unfold setRowKey
  split <;> rfl

theorem rows_startOrContinueCell (c : CellChunk) (s : DecoderState) :
    (startOrContinueCell c s).rows = s.rows := by
  unfold startOrContinueCell
  cases hq : c.qualifier with
  | some q => cases hn : s.cell_name <;> rfl
  | none =>
      by_cases h1 : c.timestamp_micros ≠ 0
      · by_cases h2 : c.timestamp_micros < s.cell_timestamp <;> simp [h1, h2]
      · simp [h1]

theorem row_key_startOrContinueCell (c : CellChunk) (s : DecoderState) :
    (startOrContinueCell c s).row_key = s.row_key := by
  unfold startOrContinueCell
  cases hq : c.qualifier with
  | some q => cases hn : s.cell_name <;> rfl
  | none =>
      by_cases h1 : c.timestamp_micros ≠ 0
      · by_cases h2 : c.timestamp_micros < s.cell_timestamp <;> simp [h1, h2]
      · simp [h1]

theorem rows_appendValue (c : CellChunk) (s : DecoderState) :
    (appendValue c s).rows = s.rows := by
  unfold appendValue
  split <;> rfl

theorem row_key_appendValue (c : CellChunk) (s : DecoderState) :
    (appendValue c s).row_key = s.row_key := by
  unfold appendValue
  split <;> rfl

theorem rows_resetRowState (s : DecoderState) :
    (resetRowState s).rows = s.rows := rfl

theorem commitRowStep_of_no_row_key (c : CellChunk) (s : DecoderState)
    (h : s.row_key = none) : (commitRowStep c s).rows = s.rows := by
  unfold commitRowStep
  cases hst : c.row_status with
  | none => rfl
  | some rs =>
      cases rs with
      | resetRow b => rfl
      | commitRow b => cases hn : s.cell_name <;> simp [h, hn]

theorem commitRowStep_of_no_commit (c : CellChunk) (s : DecoderState)
    (h : isCommitMarker c.row_status = false) : commitRowStep c s = s := by
  unfold commitRowStep
  cases hst : c.row_status with
  | none => rfl
  | some rs =>
      cases rs with
      | resetRow b => rfl
      | commitRow b => simp [isCommitMarker, hst] at h

theorem processChunk_rows_of_no_commit (s : DecoderState) (c : CellChunk)
    (h : isCommitMarker c.row_status = false) :
    (processChunk s c).rows = s.rows := by
  unfold processChunk
  rw [rows_resetRowState, commitRowStep_of_no_commit c _ h, rows_appendValue,
    rows_startOrContinueCell, rows_setRowKey]

theorem processChunks_rows_of_no_commit (chunks : List CellChunk) :
    ∀ s : DecoderState, (∀ c ∈ chunks, isCommitMarker c.row_status = false) →
      (processChunks s chunks).rows = s.rows := by
  induction chunks with
  | nil => intro s _; rfl
  | cons c cs ih =>
      intro s h
      have hstep : (processChunks s (c :: cs)) = processChunks (processChunk s c) cs := rfl
      rw [hstep, ih (processChunk s c) (fun c' hc' => h c' (List.mem_cons_of_mem c hc')),
        processChunk_rows_of_no_commit s c (h c (List.mem_cons_self c cs))]

theorem decodeLoop_timeout_exceeded (t : Nat) :
    ∀ (msgs : List (Nat × ReadRowsResponse)) (s : DecoderState),
      (∃ m ∈ msgs, t < m.1) →
      decodeLoop (some t) s msgs = Except.error Error.timeoutError := by
  intro msgs
  induction msgs with
  | nil =>
      intro s h
      simp at h
  | cons m rest ih =>
      intro s h
      obtain ⟨e, r⟩ := m
      by_cases he : t < e
      · simp [decodeLoop, he]
      · simp only [decodeLoop, he, if_false]
        apply ih
        rcases h with ⟨m', hm', ht⟩
        rcases List.mem_cons.mp hm' with h1 | h2
        · rw [h1] at ht
          exact absurd ht he
        · exact ⟨m', h2, ht⟩

theorem decodeLoop_no_commit (tout : Option Nat) (msgs : List (Nat × ReadRowsResponse)) :
    ∀ s : DecoderState,
      (∀ m ∈ msgs, ∀ c ∈ m.2.chunks, isCommitMarker c.row_status = false) →
      (∀ m ∈ msgs, ∀ t, tout = some t → m.1 ≤ t) →
      decodeLoop tout s msgs = Except.ok s.rows := by
  induction msgs with
  | nil =>
      intro s _ _
      rfl
  | cons m rest ih =>
      intro s hnc ht
      obtain ⟨e, r⟩ := m
      have hrows : (processChunks s r.chunks).rows = s.rows :=
        processChunks_rows_of_no_commit r.chunks s
          (fun c hc => hnc (e, r) (List.mem_cons_self _ _) c hc)
      have htail : decodeLoop tout (processChunks s r.chunks) rest = Except.ok s.rows := by
        rw [ih (processChunks s r.chunks)
          (fun m' hm' => hnc m' (List.mem_cons_of_mem _ hm'))
          (fun m' hm' => ht m' (List.mem_cons_of_mem _ hm')), hrows]
      cases tout with
      | none => exact htail
      | some t =>
          have hle : e ≤ t := ht (e, r) (List.mem_cons_self _ _) t rfl
          simp only [decodeLoop, Nat.not_lt.mpr hle, if_false]
          exact htail

/-- C1: the claim says a cell value split across K fragments (qualifier on
the first, zero timestamps and value bytes only afterwards) decodes to the
concatenation of all K fragments' bytes.  The code refutes this for K = 2:
the unconditional end-of-chunk reset (lines 307-310) clears `cell_name`,
`cell_value` and `row_key` after the first fragment, so the commit on the
second fragment finds no open cell and no row key and the decoder returns
no rows at all — the concatenated value "abcd" appears nowhere. -/
theorem split_cell_value_lost_at_fragment_boundary :
    decode_read_rows_response none
      [(0, ⟨[{ row_key := "r1", qualifier := some "c1", timestamp_micros := 0,
               value := "ab", row_status := none },
             { row_key := "", qualifier := none, timestamp_micros := 0,
               value := "cd", row_status := some (RowStatus.commitRow true) }]⟩)] =
    Except.ok [] := rfl

/-- C2: the spec's end-to-end example [{rowKey="r1", qualifier="c1", ts=5,
value="ab"}, {value="cd"}, {qualifier="c2", ts=1, value="x", commit=true}]
is claimed to decode to [("r1", [("c1","abcd"), ("c2","x")])].  The code
returns no rows: the per-chunk reset erases the row key and the open cell
after each of the first two fragments, so at the commit only ("c2","x") is
in `row_data` and `row_key` is `None`, hence nothing is emitted. -/
theorem three_fragment_example_decodes_to_no_rows :
    decode_read_rows_response none
      [(0, ⟨[{ row_key := "r1", qualifier := some "c1", timestamp_micros := 5,
               value := "ab", row_status := none },
             { row_key := "", qualifier := none, timestamp_micros := 0,
               value := "cd", row_status := none },
             { row_key := "", qualifier := some "c2", timestamp_micros := 1,
               value := "x", row_status := some (RowStatus.commitRow true) }]⟩)] =
    Except.ok [] := rfl

/-- C3: after processing every fragment — commit-marked or not — the
decoder's four per-row state components (row key, cell list, current cell
name, buffered cell value) are empty, because the reset at lines 307-310
runs at the end of every iteration of the chunk loop. -/
theorem processChunk_resets_all_row_state (s : DecoderState) (c : CellChunk) :
    (processChunk s c).row_key = none ∧ (processChunk s c).row_data = [] ∧
    (processChunk s c).cell_name = none ∧ (processChunk s c).cell_value = "" :=
  ⟨rfl, rfl, rfl, rfl⟩

/-- C4: the claim's example [{rowKey="r1", qualifier="c1", ts=10,
value="new"}, {ts=5, value="stale", commit=true}] is claimed to decode to
[("r1", [("c1","new")])].  The stale bytes are indeed discarded (the
ts=5 < 10 branch at lines 281-283 clears `cell_version_ok`), but the
per-chunk reset has already erased the row key and the open cell after the
first fragment, so the commit emits nothing and the code returns no rows. -/
theorem stale_version_example_decodes_to_no_rows :
    decode_read_rows_response none
      [(0, ⟨[{ row_key := "r1", qualifier := some "c1", timestamp_micros := 10,
               value := "new", row_status := none },
             { row_key := "", qualifier := none, timestamp_micros := 5,
               value := "stale", row_status := some (RowStatus.commitRow true) }]⟩)] =
    Except.ok [] := rfl

/-- C5: a continuation fragment (no qualifier) whose nonzero timestamp
equals the tracked cell timestamp takes the newer-version branch (lines
284-289): after the version check and the value append, the keep-flag is
true, the buffered value is exactly the fragment's bytes (the old buffer
was discarded), and the tracked timestamp is the fragment's timestamp —
last-writer-wins among equal timestamps. -/
theorem equal_timestamp_treated_as_newer (s : DecoderState) (c : CellChunk)
    (hq : c.qualifier = none) (hnz : c.timestamp_micros ≠ 0)
    (heq : c.timestamp_micros = s.cell_timestamp) :
    (appendValue c (startOrContinueCell c s)).cell_version_ok = true ∧
    (appendValue c (startOrContinueCell c s)).cell_value = c.value ∧
    (appendValue c (startOrContinueCell c s)).cell_timestamp = c.timestamp_micros := by
  have hnz' : s.cell_timestamp ≠ 0 := heq ▸ hnz
  unfold startOrContinueCell appendValue
  rw [hq, heq]
  simp [hnz', lt_irrefl]

theorem equal_timestamp_treated_as_newer_witness :
    (c5_chunk.qualifier = none ∧ c5_chunk.timestamp_micros ≠ 0 ∧
     c5_chunk.timestamp_micros = c5_state.cell_timestamp) ∧
    ((appendValue c5_chunk (startOrContinueCell c5_chunk c5_state)).cell_version_ok = true ∧
     (appendValue c5_chunk (startOrContinueCell c5_chunk c5_state)).cell_value = c5_chunk.value ∧
     (appendValue c5_chunk (startOrContinueCell c5_chunk c5_state)).cell_timestamp =
       c5_chunk.timestamp_micros) :=
  ⟨⟨rfl, by decide, rfl⟩,
   equal_timestamp_treated_as_newer c5_state c5_chunk rfl (by decide) rfl⟩

/-- C6: whenever a timeout is configured and some received stream message
is observed with an elapsed wall-clock reading exceeding it, decoding
returns `Err(Error::TimeoutError)` and hence no rows at all — including
rows that earlier messages in the same call had fully assembled. -/
theorem timeout_exceeded_returns_timeout_error (t : Nat)
    (msgs : List (Nat × ReadRowsResponse)) (h : ∃ m ∈ msgs, t < m.1) :
    decode_read_rows_response (some t) msgs = Except.error Error.timeoutError :=
  decodeLoop_timeout_exceeded t msgs initState h

theorem timeout_exceeded_returns_timeout_error_witness :
    (∃ m ∈ c6_msgs, 3 < m.1) ∧
    decode_read_rows_response (some 3) c6_msgs = Except.error Error.timeoutError :=
  ⟨⟨(5, ⟨[{ row_key := "r1", qualifier := some "c1", timestamp_micros := 1,
            value := "v", row_status := some (RowStatus.commitRow true) }]⟩),
     List.mem_singleton.mpr rfl, by norm_num⟩,
   timeout_exceeded_returns_timeout_error 3 c6_msgs
     ⟨(5, ⟨[{ row_key := "r1", qualifier := some "c1", timestamp_micros := 1,
              value := "v", row_status := some (RowStatus.commitRow true) }]⟩),
      List.mem_singleton.mpr rfl, by norm_num⟩⟩

/-- C7: a fragment carrying the commit marker while no row key is set in
the current construction cycle (and carrying none itself) leaves the
output rows unchanged, and a stream consisting of exactly that fragment
decodes without error to the empty row list: the malformed commit is
silently absorbed. -/
theorem commit_without_row_key_emits_no_row (s : DecoderState) (c : CellChunk)
    (hs : s.row_key = none) (hck : c.row_key = "")
    (hc : isCommitMarker c.row_status = true) :
    (processChunk s c).rows = s.rows ∧
    decode_read_rows_response none [(0, ⟨[c]⟩)] = Except.ok [] := by
  have key : ∀ s' : DecoderState, s'.row_key = none → (processChunk s' c).rows = s'.rows := by
    intro s' h'
    unfold processChunk
    rw [setRowKey_of_empty c s' hck, rows_resetRowState, commitRowStep_of_no_row_key,
      rows_appendValue, rows_startOrContinueCell]
    rw [row_key_appendValue, row_key_startOrContinueCell]
    exact h'
  refine ⟨key s hs, ?_⟩
  show decodeLoop none initState [(0, ⟨[c]⟩)] = Except.ok []
  have h2 : (processChunks initState [c]).rows = initState.rows := key initState rfl
  calc decodeLoop none initState [(0, ⟨[c]⟩)]
      = Except.ok (processChunks initState [c]).rows := rfl
    _ = Except.ok [] := by rw [h2]; rfl

theorem commit_without_row_key_emits_no_row_witness :
    (initState.row_key = none ∧ c7_chunk.row_key = "" ∧
     isCommitMarker c7_chunk.row_status = true) ∧
    ((processChunk initState c7_chunk).rows = initState.rows ∧
     decode_read_rows_response none [(0, ⟨[c7_chunk]⟩)] = Except.ok []) :=
  ⟨⟨rfl, rfl, rfl⟩,
   commit_without_row_key_emits_no_row initState c7_chunk rfl rfl rfl⟩

/-- C8: a stream that reaches EOF after fragments none of which carries
the commit marker decodes successfully to the empty row list (provided no
configured timeout is exceeded): partially assembled row data is never
emitted. -/
theorem eof_without_commit_yields_no_rows (tout : Option Nat)
    (msgs : List (Nat × ReadRowsResponse))
    (hnc : ∀ m ∈ msgs, ∀ c ∈ m.2.chunks, isCommitMarker c.row_status = false)
    (ht : ∀ m ∈ msgs, ∀ t, tout = some t → m.1 ≤ t) :
    decode_read_rows_response tout msgs = Except.ok [] :=
  decodeLoop_no_commit tout msgs initState hnc ht

theorem eof_without_commit_yields_no_rows_witness :
    ((∀ m ∈ c8_msgs, ∀ c ∈ m.2.chunks, isCommitMarker c.row_status = false) ∧
     (∀ m ∈ c8_msgs, ∀ t, (none : Option Nat) = some t → m.1 ≤ t)) ∧
    decode_read_rows_response none c8_msgs = Except.ok [] :=
  ⟨⟨by decide, by simp⟩,
   eof_without_commit_yields_no_rows none c8_msgs (by decide) (by simp)⟩

/-- C9: the per-fragment reset (lines 307-310) clears exactly the row key,
the cell list, the current cell name and the buffered value, while leaving
`rows`, the tracked `cell_timestamp` and the keep-flag `cell_version_ok`
unchanged; consequently version state persists across committed rows, and
in the concrete stream below the second row's continuation fragment
(ts=5 < the ts=10 tracked from the previous row) has its bytes "b"
silently dropped, yielding ("r2", []). -/
theorem reset_preserves_version_tracking :
    (∀ s : DecoderState,
       (resetRowState s).cell_timestamp = s.cell_timestamp ∧
       (resetRowState s).cell_version_ok = s.cell_version_ok ∧
       (resetRowState s).rows = s.rows ∧
       (resetRowState s).row_key = none ∧
       (resetRowState s).row_data = [] ∧
       (resetRowState s).cell_name = none ∧
       (resetRowState s).cell_value = "") ∧
    decode_read_rows_response none
      [(0, ⟨[{ row_key := "r1", qualifier := some "c1", timestamp_micros := 10,
               value := "a", row_status := some (RowStatus.commitRow true) },
             { row_key := "r2", qualifier := none, timestamp_micros := 5,
               value := "b", row_status := some (RowStatus.commitRow true) }]⟩)] =
      Except.ok [("r1", [("c1", "a")]), ("r2", [])] :=
  ⟨fun _ => ⟨rfl, rfl, rfl, rfl, rfl, rfl, rfl⟩, rfl⟩

/-- C10: both branches of `BigTableConnection::new` build the channel pool
from `vec![0; channel_size.max(1)]`, so the endpoint list always has
`max(channel_size, 1)` elements — at least one — and a channel size of 0
yields a single-endpoint pool. -/
theorem channel_pool_has_at_least_one_endpoint (channel_size : Nat)
    (endpoint : String) (tout : Option Nat) :
    (emulatorEndpoints channel_size endpoint tout).length = max channel_size 1 ∧
    (productionEndpoints channel_size tout).length = max channel_size 1 ∧
    1 ≤ max channel_size 1 ∧
    (emulatorEndpoints 0 endpoint tout).length = 1 ∧
    (productionEndpoints 0 tout).length = 1 := by
  refine ⟨?_, ?_, le_max_right _ _, ?_, ?_⟩ <;>
    simp [emulatorEndpoints, productionEndpoints]

end BigtableRs
